import Mathlib

/-!
Verification development for the TimerAD focus-timer subsystem.

The definitions below are a shallow embedding of the timer-related code in
`src/index.tsx` (with its duplicated variant in `src/unnamed/part_000`):
the `Task` record, the `formatTime` utility, the controller state held in
React state and refs (`tasks`, `timedTaskId`, `timerIntervalRef`,
`pipWindowRef`, `isDistracted`), `handleStopTimer`, `handleStartTimer`,
the 1 Hz interval callback (the `setTasks` updater plus the guarded DOM
writes into the picture-in-picture window), and the event-driven steps
(clock pulse, `pagehide`, the `checkPipClosedInterval` poll).
-/

namespace TimerAD

/-- Task status union type: `'todo' | 'inprogress' | 'done'`. -/
inductive TaskStatus where
  | todo
  | inprogress
  | done
deriving DecidableEq

/-- The `Task` record of `src/index.tsx` (lines 22-31). `timeSpent` and
`distractionTime` are in seconds. -/
structure Task where
  id : String
  name : String
  impact : Int
  effort : Int
  deadline : String
  status : TaskStatus
  timeSpent : Nat
  distractionTime : Nat
deriving DecidableEq

/-- JavaScript `s.padStart(2, '0')`: pad with zeros on the left up to
length 2 (no-op on strings of length 2 or more). -/
def padStart2 (s : String) : String :=
  if s.length < 2 then String.mk (List.replicate (2 - s.length) '0') ++ s else s

/-- `formatTime` from `src/index.tsx` lines 38-45: split total seconds into
hours, minutes, seconds, zero-pad each and join with `:`. -/
def formatTime (totalSeconds : Nat) : String :=
  let hours := totalSeconds / 3600
  let minutes := (totalSeconds % 3600) / 60
  let seconds := totalSeconds % 60
  String.intercalate ":" ([hours, minutes, seconds].map (fun v => padStart2 (toString v)))

/-- The spec's wording of the time format ("total seconds rendered as
zero-padded HH:MM:SS", each component zero-padded to at least two digits),
written independently of the source's `padStart`/`join` mechanics, to be
compared with `formatTime`. -/
def padSpec (v : Nat) : String :=
  if v < 10 then "0" ++ toString v else toString v

/-- Spec-side HH:MM:SS rendering used to state claim C9. -/
def formatTimeSpec (n : Nat) : String :=
  padSpec (n / 3600) ++ ":" ++ padSpec ((n % 3600) / 60) ++ ":" ++ padSpec (n % 60)

/-- The observable state of the picture-in-picture window reachable through
`pipWindowRef`: whether it is closed, and the text/visibility of the DOM
elements the tick callback patches (`#timer-display`, `#distraction-label`,
`#distraction-time`). `none` for an element means `getElementById` finds
nothing. -/
structure PipWindow where
  closed : Bool
  timerDisplay : Option String
  distractionLabelShown : Option Bool
  distractionTimeText : Option String
deriving DecidableEq

/-- Controller state: the React state and refs of `App` that the timer
logic reads and writes (`src/index.tsx` lines 70-80). -/
structure AppState where
  tasks : List Task
  timedTaskId : Option String
  timerIntervalRef : Option Nat
  pipWindowRef : Option PipWindow
  isDistracted : Bool
deriving DecidableEq

/-- Externally visible side requests emitted by the controller. -/
inductive Effect where
  | closeSurface
deriving DecidableEq

/-- `handleStopTimer` (`src/index.tsx` lines 155-165): clear and null the
interval handle, request closure of the pip window when one is open, null
the window ref, null `timedTaskId`. Returns the new state together with
the emitted close requests. -/
def handleStopTimer (st : AppState) : AppState × List Effect :=
  let effs :=
    match st.pipWindowRef with
    | some w => if w.closed then [] else [Effect.closeSurface]
    | none => []
  ({ st with timerIntervalRef := none, pipWindowRef := none, timedTaskId := none }, effs)

/-- State part of `handleStopTimer`. -/
def stopState (st : AppState) : AppState :=
  (handleStopTimer st).1

/-- `tasks.find(t => t.id === id)`. -/
def findTask (tasks : List Task) (id : String) : Option Task :=
  tasks.find? (fun t => t.id == id)

/-- One tick applied to the targeted task (`src/index.tsx` lines 290-291,
304): when distracted, `distractionTime` gains one second, otherwise
`timeSpent` does; all other fields are spread through unchanged. -/
def tickTask (isDistracted : Bool) (t : Task) : Task :=
  { t with
    timeSpent := if isDistracted then t.timeSpent else t.timeSpent + 1,
    distractionTime := if isDistracted then t.distractionTime + 1 else t.distractionTime }

/-- The `setTasks` updater run by the interval callback (`src/index.tsx`
lines 287-308): map over the current tasks, replacing the task whose id
matches `timedTaskId` by its ticked version and returning every other task
as-is. -/
def tickTasks (isDistracted : Bool) (timedTaskId : String) (tasks : List Task) : List Task :=
  tasks.map (fun t => if t.id == timedTaskId then tickTask isDistracted t else t)

/-- The guarded DOM writes of the interval callback (`src/index.tsx`
lines 293-303): only performed when the window ref is non-null and the
window is not closed, and each element is only patched when
`getElementById` finds it (`#distraction-label` and `#distraction-time`
are patched together or not at all). A stale or closed handle makes this
a no-op. -/
def renderTick (newTimeSpent newDistractionTime : Nat) (w : Option PipWindow) :
    Option PipWindow :=
  match w with
  | none => none
  | some win =>
    if win.closed then some win
    else
      some { win with
        timerDisplay := win.timerDisplay.map (fun _ => formatTime newTimeSpent),
        distractionLabelShown :=
          match win.distractionLabelShown, win.distractionTimeText with
          | some _, some _ => some (decide (0 < newDistractionTime))
          | a, _ => a,
        distractionTimeText :=
          match win.distractionLabelShown, win.distractionTimeText with
          | some _, some _ => some (formatTime newDistractionTime)
          | _, b => b }

/-- One firing of the 1 Hz interval callback (`src/index.tsx`
lines 286-309): apply the tick updater to the task list and patch the pip
window with the freshly computed pair for the targeted task. The task
update is computed unconditionally; the DOM writes are guarded by
`renderTick`. -/
def tickStep (st : AppState) : AppState :=
  match st.timedTaskId with
  | none => st
  | some tid =>
    let newTasks := tickTasks st.isDistracted tid st.tasks
    let newWin :=
      match findTask st.tasks tid with
      | none => st.pipWindowRef
      | some t =>
        let newTimeSpent := if st.isDistracted then t.timeSpent else t.timeSpent + 1
        let newDistractionTime :=
          if st.isDistracted then t.distractionTime + 1 else t.distractionTime
        renderTick newTimeSpent newDistractionTime st.pipWindowRef
    { st with tasks := newTasks, pipWindowRef := newWin }

/-- Asynchronous events the controller reacts to: a clock pulse (the
interval callback fires only while an interval handle is registered), the
pip window's `pagehide` event (`src/index.tsx` lines 268-270), and one
firing of the `checkPipClosedInterval` poll (lines 330-335). -/
inductive Event where
  | pulse
  | pagehide
  | pipClosedPoll
deriving DecidableEq

/-- Event-driven small step of the controller. -/
def step (st : AppState) (e : Event) : AppState :=
  match e with
  | Event.pulse => if st.timerIntervalRef.isSome then tickStep st else st
  | Event.pagehide => stopState st
  | Event.pipClosedPoll =>
    match st.pipWindowRef with
    | some w => if w.closed then stopState st else st
    | none => st

/-- Run a sequence of events. -/
def runEvents (st : AppState) (es : List Event) : AppState :=
  es.foldl step st

/-- Result reported by `handleStartTimer`: `alreadyActive` is the
"Another timer is already running" alert, `surfaceUnavailable` covers both
the "Picture-in-Picture is not supported" alert and the catch branch of a
failed `requestWindow`, `taskNotFound` is the silent early return. -/
inductive StartResult where
  | ok
  | alreadyActive
  | taskNotFound
  | surfaceUnavailable
deriving DecidableEq

/-- The pip window document as `handleStartTimer` builds it on success
(`src/index.tsx` lines 730-735): `#timer-display` shows the task's current
`timeSpent`, the distraction label starts hidden with `00:00:00`. -/
def initPipWindow (t : Task) : PipWindow :=
  { closed := false,
    timerDisplay := some (formatTime t.timeSpent),
    distractionLabelShown := some false,
    distractionTimeText := some (formatTime 0) }

/-- `handleStartTimer` (`src/index.tsx` lines 697-755) composed with the
interval-starting effect (lines 758-787) that fires once `timedTaskId` is
set with an open window. `pipSupported` models
`'documentPictureInPicture' in window`; `acquireSucceeds` models whether
`requestWindow` resolves or throws; `handle` is the id `setInterval`
returns. On a throw the catch branch runs `setTimedTaskId(null)` and no
interval is ever started. -/
def handleStartTimer (pipSupported acquireSucceeds : Bool) (handle : Nat)
    (taskId : String) (st : AppState) : AppState × StartResult :=
  if st.timedTaskId.isSome then (st, StartResult.alreadyActive)
  else
    match findTask st.tasks taskId with
    | none => (st, StartResult.taskNotFound)
    | some task =>
      if !pipSupported then (st, StartResult.surfaceUnavailable)
      else if acquireSucceeds then
        ({ st with
            pipWindowRef := some (initPipWindow task),
            timedTaskId := some taskId,
            timerIntervalRef := some handle }, StartResult.ok)
      else
        ({ st with timedTaskId := none }, StartResult.surfaceUnavailable)

/-- A whole session's worth of ticks: one tick per entry of `flags`, each
entry being the distraction flag read at that tick. -/
def applyTicks (flags : List Bool) (timedTaskId : String) (tasks : List Task) : List Task :=
  flags.foldl (fun ts d => tickTasks d timedTaskId ts) tasks

/-- Concrete task used to instantiate theorems with hypotheses. -/
def exTask : Task :=
  { id := "t1", name := "Write report", impact := 5, effort := 5,
    deadline := "2026-01-01", status := TaskStatus.todo,
    timeSpent := 0, distractionTime := 0 }

/-- A second concrete task. -/
def exTask2 : Task :=
  { id := "t2", name := "Review code", impact := 3, effort := 2,
    deadline := "2026-02-01", status := TaskStatus.inprogress,
    timeSpent := 7, distractionTime := 4 }

/-- Concrete open pip window. -/
def exWindow : PipWindow :=
  { closed := false, timerDisplay := some "00:00:00",
    distractionLabelShown := some false, distractionTimeText := some "00:00:00" }

/-- Concrete state with an active session targeting `exTask`. -/
def activeEx : AppState :=
  { tasks := [exTask, exTask2], timedTaskId := some "t1",
    timerIntervalRef := some 1, pipWindowRef := some exWindow,
    isDistracted := false }

/-- Concrete idle state. -/
def idleEx : AppState :=
  { tasks := [exTask, exTask2], timedTaskId := none,
    timerIntervalRef := none, pipWindowRef := none, isDistracted := false }

/-- Concrete state whose session targets a task id that no longer exists
in the task list (the task was deleted mid-session). -/
def ghostState : AppState :=
  { tasks := [exTask2], timedTaskId := some "t1",
    timerIntervalRef := some 1, pipWindowRef := some exWindow,
    isDistracted := false }

end TimerAD

namespace TimerAD

/-- `Nat.toDigitsCore` with positive fuel and empty accumulator produces at
least one character. -/
theorem toDigitsCore_length_pos (b : Nat) (f n : Nat) (hf : 0 < f) :
    1 ≤ (Nat.toDigitsCore b f n []).length := by
  cases f with
  | zero => omega
  | succ f =>
    simp only [Nat.toDigitsCore]
    by_cases h : n / b = 0
    · simp [h]
    · rw [if_neg h, Nat.toDigitsCore_lens_eq]
      omega

/-- The decimal representation of a number of at least 10 has at least two
characters. -/
theorem repr_length_ge_two (n : Nat) (h : 10 ≤ n) : 2 ≤ (Nat.repr n).length := by
  have hdiv : ¬ n / 10 = 0 := by omega
  have hn : 0 < n := by omega
  simp only [Nat.repr, Nat.toDigits, String.length, List.asString]
  simp only [Nat.toDigitsCore]
  rw [if_neg hdiv, Nat.toDigitsCore_lens_eq]
  have := toDigitsCore_length_pos 10 n (n / 10) hn
  omega

/-- The decimal representation of a digit is a single character. -/
theorem repr_length_one (v : Nat) (h : v < 10) : (toString v).length = 1 := by
  interval_cases v <;> decide

/-- JavaScript zero-padding of a decimal number agrees with the spec-side
case split on `v < 10`. -/
theorem padStart2_toString (v : Nat) : padStart2 (toString v) = padSpec v := by
  by_cases h : v < 10
  · have h1 : (toString v).length = 1 := repr_length_one v h
    simp only [padStart2, padSpec, h1, h, if_pos]
    norm_num
  · have h2 : 2 ≤ (toString v).length := repr_length_ge_two v (by omega)
    simp only [padStart2, padSpec]
    rw [if_neg (by omega), if_neg h]

/-- Claim C9: for every non-negative integer number of seconds `n`,
`formatTime n` joins `n / 3600` hours, `(n % 3600) / 60` minutes and
`n % 60` seconds with `:` separators, each zero-padded to at least two
digits, with `formatTime 3 = "00:00:03"` and
`formatTime 3661 = "01:01:01"`. -/
theorem formatTime_correct (n : Nat) :
    formatTime n = formatTimeSpec n ∧
    formatTime 3 = "00:00:03" ∧
    formatTime 3661 = "01:01:01" := by
  refine ⟨?_, by decide, by decide⟩
  have key : ∀ a b c : String,
      String.intercalate ":" [a, b, c] = a ++ ":" ++ b ++ ":" ++ c := fun a b c => rfl
  simp only [formatTime, formatTimeSpec, List.map, key, padStart2_toString]

/-- Ticking preserves a task's id. -/
theorem tickTask_id (d : Bool) (t : Task) : (tickTask d t).id = t.id := rfl

/-- Looking up the targeted task after one tick finds the ticked version of
the task the lookup found before. -/
theorem findTask_tickTasks (d : Bool) (tid : String) (tasks : List Task) :
    findTask (tickTasks d tid tasks) tid = (findTask tasks tid).map (tickTask d) := by
  induction tasks with
  | nil => rfl
  | cons t ts ih =>
    unfold findTask at ih ⊢
    cases h : (t.id == tid) with
    | true =>
      have hmap : tickTasks d tid (t :: ts) = tickTask d t :: tickTasks d tid ts := by
        simp only [tickTasks, List.map_cons]
        rw [if_pos h]
      have hp : (fun u : Task => u.id == tid) (tickTask d t) = true := h
      have hq : (fun u : Task => u.id == tid) t = true := h
      have e1 : List.find? (fun u : Task => u.id == tid) (tickTask d t :: tickTasks d tid ts)
          = some (tickTask d t) := List.find?_cons_of_pos _ hp
      have e2 : List.find? (fun u : Task => u.id == tid) (t :: ts) = some t :=
        List.find?_cons_of_pos _ hq
      rw [hmap, e1, e2]
      rfl
    | false =>
      have hmap : tickTasks d tid (t :: ts) = t :: tickTasks d tid ts := by
        simp only [tickTasks, List.map_cons]
        rw [if_neg (by simp [h])]
      have hp : ¬ ((fun u : Task => u.id == tid) t = true) := by simp [h]
      have e1 : List.find? (fun u : Task => u.id == tid) (t :: tickTasks d tid ts)
          = List.find? (fun u : Task => u.id == tid) (tickTasks d tid ts) :=
        List.find?_cons_of_neg _ hp
      have e2 : List.find? (fun u : Task => u.id == tid) (t :: ts)
          = List.find? (fun u : Task => u.id == tid) ts :=
        List.find?_cons_of_neg _ hp
      rw [hmap, e1, e2]
      exact ih

/-- Looking up the targeted task after a sequence of ticks finds the task
the lookup found before with every tick applied. -/
theorem findTask_applyTicks (flags : List Bool) (tid : String) (tasks : List Task) :
    findTask (applyTicks flags tid tasks) tid =
      (findTask tasks tid).map (fun t => flags.foldl (fun u d => tickTask d u) t) := by
  induction flags generalizing tasks with
  | nil => simp [applyTicks, findTask]
  | cons d ds ih =>
    simp only [applyTicks, List.foldl] at *
    rw [ih (tickTasks d tid tasks), findTask_tickTasks]
    cases findTask tasks tid <;> simp

/-- One tick adds exactly one second to the two counters combined. -/
theorem tickTask_sum (d : Bool) (t : Task) :
    (tickTask d t).timeSpent + (tickTask d t).distractionTime
      = t.timeSpent + t.distractionTime + 1 := by
  cases d <;> simp [tickTask] <;> omega

/-- A sequence of ticks adds exactly its length to the two counters
combined. -/
theorem foldl_tickTask_sum (flags : List Bool) (t : Task) :
    (flags.foldl (fun u d => tickTask d u) t).timeSpent
      + (flags.foldl (fun u d => tickTask d u) t).distractionTime
      = t.timeSpent + t.distractionTime + flags.length := by
  induction flags generalizing t with
  | nil => simp
  | cons d ds ih =>
    rw [List.foldl_cons, ih (tickTask d t), tickTask_sum]
    simp [Nat.add_assoc, Nat.add_comm]
    omega

/-- Claim C1: for every sequence of ticks processed while a session targets
task `tid`, each tick increments exactly one of `timeSpent` and
`distractionTime` by exactly 1 (`distractionTime` if the distraction flag
read at tick time is true, otherwise `timeSpent`), so the targeted task's
`timeSpent + distractionTime` always equals its session-start value plus
the number of ticks processed, hence equals the number of ticks processed
when the session started from zeroed counters. -/
theorem tick_sum_invariant (flags : List Bool) (tid : String) (tasks : List Task)
    (t0 : Task) (h : findTask tasks tid = some t0) :
    (∀ (d : Bool) (u : Task),
      (tickTask d u).timeSpent + (tickTask d u).distractionTime
        = u.timeSpent + u.distractionTime + 1 ∧
      (if d then
        (tickTask d u).distractionTime = u.distractionTime + 1 ∧
        (tickTask d u).timeSpent = u.timeSpent
       else
        (tickTask d u).timeSpent = u.timeSpent + 1 ∧
        (tickTask d u).distractionTime = u.distractionTime)) ∧
    ∃ t1, findTask (applyTicks flags tid tasks) tid = some t1 ∧
      t1.timeSpent + t1.distractionTime
        = t0.timeSpent + t0.distractionTime + flags.length ∧
      (t0.timeSpent = 0 → t0.distractionTime = 0 →
        t1.timeSpent + t1.distractionTime = flags.length) := by
  constructor
  · intro d u
    refine ⟨tickTask_sum d u, ?_⟩
    cases d <;> simp [tickTask]
  · refine ⟨flags.foldl (fun u d => tickTask d u) t0, ?_, ?_, ?_⟩
    · rw [findTask_applyTicks, h]
      rfl
    · exact foldl_tickTask_sum flags t0
    · intro h1 h2
      rw [foldl_tickTask_sum, h1, h2]
      omega

/-- Witness for claim C1: the spec scenario of three undistracted ticks
followed by two distracted ticks applied to a task with zeroed counters. -/
theorem tick_sum_invariant_witness :
    findTask [exTask, exTask2] "t1" = some exTask ∧
    (∃ t1, findTask (applyTicks [false, false, false, true, true] "t1" [exTask, exTask2])
        "t1" = some t1 ∧
      t1.timeSpent + t1.distractionTime
        = exTask.timeSpent + exTask.distractionTime + 5 ∧
      (exTask.timeSpent = 0 → exTask.distractionTime = 0 →
        t1.timeSpent + t1.distractionTime = 5)) :=
  ⟨by decide,
   (tick_sum_invariant [false, false, false, true, true] "t1" [exTask, exTask2] exTask
      (by decide)).2⟩

/-- Claim C2: whenever a timer session already exists (`timedTaskId` is
non-null), `handleStartTimer` for any task is rejected with
`alreadyActive` and returns without modifying anything: the state is
returned unchanged, so the active session still targets the original task
and every task's counters are untouched. -/
theorem start_rejected_when_active (pipSupported acquireSucceeds : Bool) (handle : Nat)
    (taskId : String) (st : AppState) (t1 : String)
    (hactive : st.timedTaskId = some t1) :
    handleStartTimer pipSupported acquireSucceeds handle taskId st
      = (st, StartResult.alreadyActive) ∧
    (handleStartTimer pipSupported acquireSucceeds handle taskId st).1.timedTaskId
      = some t1 ∧
    (handleStartTimer pipSupported acquireSucceeds handle taskId st).1.tasks = st.tasks := by
  have h : st.timedTaskId.isSome = true := by rw [hactive]; rfl
  have he : handleStartTimer pipSupported acquireSucceeds handle taskId st
      = (st, StartResult.alreadyActive) := by
    simp [handleStartTimer, h]
  refine ⟨he, ?_, ?_⟩ <;> rw [he] <;> simp [hactive]

/-- Witness for claim C2: starting a timer for `exTask2` while a session
already targets `exTask` is rejected and changes nothing. -/
theorem start_rejected_when_active_witness :
    activeEx.timedTaskId = some "t1" ∧
    (handleStartTimer true true 2 "t2" activeEx = (activeEx, StartResult.alreadyActive) ∧
     (handleStartTimer true true 2 "t2" activeEx).1.timedTaskId = some "t1" ∧
     (handleStartTimer true true 2 "t2" activeEx).1.tasks = activeEx.tasks) :=
  ⟨rfl, start_rejected_when_active true true 2 "t2" activeEx "t1" rfl⟩

/-- Claim C3: `handleStopTimer` is idempotent — calling it twice in a row
yields the same end state as calling it once — and calling it while idle
(no interval handle, no window handle, no timed task) is a no-op that
emits no close request and reports no error. -/
theorem stop_idempotent (st : AppState) :
    stopState (stopState st) = stopState st ∧
    (st.timerIntervalRef = none → st.pipWindowRef = none → st.timedTaskId = none →
      handleStopTimer st = (st, [])) := by
  cases st with
  | mk tasksF timedF intrF pipF disF =>
    constructor
    · rfl
    · intro h1 h2 h3
      subst h1
      subst h2
      subst h3
      rfl

/-- Witness for claim C3 at the concrete idle state. -/
theorem stop_idempotent_witness :
    (idleEx.timerIntervalRef = none ∧ idleEx.pipWindowRef = none ∧
      idleEx.timedTaskId = none) ∧
    stopState (stopState idleEx) = stopState idleEx ∧
    handleStopTimer idleEx = (idleEx, []) :=
  ⟨⟨rfl, rfl, rfl⟩, (stop_idempotent idleEx).1,
    (stop_idempotent idleEx).2 rfl rfl rfl⟩

/-- A state with no registered interval handle ignores clock pulses. -/
theorem step_pulse_of_no_interval (s : AppState) (h : s.timerIntervalRef = none) :
    step s Event.pulse = s := by
  simp [step, h]

/-- A state with no registered interval handle ignores any sequence of
clock pulses. -/
theorem runEvents_pulses_of_no_interval (s : AppState) (h : s.timerIntervalRef = none) :
    ∀ es : List Event, (∀ e ∈ es, e = Event.pulse) → runEvents s es = s := by
  intro es
  induction es with
  | nil => intro _; rfl
  | cons e es ih =>
    intro hes
    have he : e = Event.pulse := hes e (List.mem_cons_self e es)
    subst he
    show runEvents (step s Event.pulse) es = s
    rw [step_pulse_of_no_interval s h]
    exact ih (fun e' he' => hes e' (List.mem_cons_of_mem _ he'))

/-- Claim C4: a surface close notification (the pip window's `pagehide`
event, or the poll observing the window closed) delivered while a session
is active runs exactly the `handleStopTimer` path, driving the controller
to idle (no timed task, no interval handle, no window handle) with the
task store untouched, and after it no further task-store updates occur
even if more clock pulses are injected. -/
theorem pagehide_stops_session (st : AppState) (tid : String)
    (h1 : st.timedTaskId = some tid) (h2 : st.timerIntervalRef.isSome = true) :
    step st Event.pagehide = stopState st ∧
    (step st Event.pagehide).timedTaskId = none ∧
    (step st Event.pagehide).timerIntervalRef = none ∧
    (step st Event.pagehide).pipWindowRef = none ∧
    (step st Event.pagehide).tasks = st.tasks ∧
    (∀ w : PipWindow, st.pipWindowRef = some w → w.closed = true →
      step st Event.pipClosedPoll = stopState st) ∧
    (∀ es : List Event, (∀ e ∈ es, e = Event.pulse) →
      runEvents (step st Event.pagehide) es = step st Event.pagehide) := by
  refine ⟨rfl, rfl, rfl, rfl, rfl, ?_, ?_⟩
  · intro w hw hc
    simp [step, hw, hc]
  · exact runEvents_pulses_of_no_interval (stopState st) rfl

/-- Witness for claim C4: closing the surface of the concrete active state
goes idle and two further pulses change nothing. -/
theorem pagehide_stops_session_witness :
    (activeEx.timedTaskId = some "t1" ∧ activeEx.timerIntervalRef.isSome = true) ∧
    (step activeEx Event.pagehide).timedTaskId = none ∧
    (step activeEx Event.pagehide).tasks = activeEx.tasks ∧
    runEvents (step activeEx Event.pagehide) [Event.pulse, Event.pulse]
      = step activeEx Event.pagehide :=
  ⟨⟨rfl, rfl⟩,
   (pagehide_stops_session activeEx "t1" rfl rfl).2.1,
   (pagehide_stops_session activeEx "t1" rfl rfl).2.2.2.2.1,
   (pagehide_stops_session activeEx "t1" rfl rfl).2.2.2.2.2.2
     [Event.pulse, Event.pulse] (by decide)⟩

/-- Claim C5: when a start call reaches surface acquisition from idle and
acquisition fails (platform unsupported or the acquire call throws), the
controller reports `surfaceUnavailable` and the state is exactly the idle
state it started from: no timed task, no interval handle, no window
handle, and the task store (hence the target task's counters) unchanged. -/
theorem acquisition_failure_leaves_idle (pipSupported acquireSucceeds : Bool)
    (handle : Nat) (taskId : String) (st : AppState) (task : Task)
    (hidle : st.timedTaskId = none)
    (hint : st.timerIntervalRef = none) (hpip : st.pipWindowRef = none)
    (hfound : findTask st.tasks taskId = some task)
    (hfail : pipSupported = false ∨ acquireSucceeds = false) :
    handleStartTimer pipSupported acquireSucceeds handle taskId st
      = (st, StartResult.surfaceUnavailable) ∧
    (handleStartTimer pipSupported acquireSucceeds handle taskId st).1.timedTaskId
      = none ∧
    (handleStartTimer pipSupported acquireSucceeds handle taskId st).1.timerIntervalRef
      = none ∧
    (handleStartTimer pipSupported acquireSucceeds handle taskId st).1.pipWindowRef
      = none ∧
    (handleStartTimer pipSupported acquireSucceeds handle taskId st).1.tasks
      = st.tasks := by
  have he : handleStartTimer pipSupported acquireSucceeds handle taskId st
      = (st, StartResult.surfaceUnavailable) := by
    cases st with
    | mk tasksF timedF intrF pipF disF =>
      subst hidle
      cases pipSupported <;> cases acquireSucceeds <;>
        simp_all [handleStartTimer, hfound]
  refine ⟨he, ?_, ?_, ?_, ?_⟩ <;> rw [he] <;> simp [hidle, hint, hpip]

/-- Witness for claim C5: a failed acquisition from the concrete idle
state reports `surfaceUnavailable` and leaves everything untouched. -/
theorem acquisition_failure_leaves_idle_witness :
    (idleEx.timedTaskId = none ∧ idleEx.timerIntervalRef = none ∧
     idleEx.pipWindowRef = none ∧ findTask idleEx.tasks "t1" = some exTask) ∧
    (handleStartTimer true false 3 "t1" idleEx = (idleEx, StartResult.surfaceUnavailable) ∧
     (handleStartTimer true false 3 "t1" idleEx).1.timedTaskId = none ∧
     (handleStartTimer true false 3 "t1" idleEx).1.timerIntervalRef = none ∧
     (handleStartTimer true false 3 "t1" idleEx).1.pipWindowRef = none ∧
     (handleStartTimer true false 3 "t1" idleEx).1.tasks = idleEx.tasks) :=
  ⟨⟨rfl, rfl, rfl, by decide⟩,
   acquisition_failure_leaves_idle true false 3 "t1" idleEx exTask rfl rfl rfl
     (by decide) (Or.inr rfl)⟩

/-- Claim C6 counterexample: in the concrete state `ghostState` the session
targets id `t1` but no such task exists, and a clock pulse leaves the
whole state unchanged — in particular the session is NOT stopped (the
timed-task id and the interval handle both survive the tick), refuting the
claim that a failed task lookup at tick time stops the session. -/
theorem deleted_task_session_not_stopped :
    ghostState.timedTaskId = some "t1" ∧
    findTask ghostState.tasks "t1" = none ∧
    ghostState.timerIntervalRef = some 1 ∧
    step ghostState Event.pulse = ghostState ∧
    ¬((step ghostState Event.pulse).timedTaskId = none ∨
      (step ghostState Event.pulse).timerIntervalRef = none) := by
  refine ⟨rfl, by decide, rfl, by decide, by decide⟩

/-- A tick updater over a list containing no task with the targeted id
returns the list unchanged. -/
theorem tickTasks_of_not_found (d : Bool) (tid : String) (tasks : List Task)
    (h : findTask tasks tid = none) : tickTasks d tid tasks = tasks := by
  induction tasks with
  | nil => rfl
  | cons t ts ih =>
    unfold findTask at h ih
    cases hh : (t.id == tid) with
    | true =>
      have hq : (fun u : Task => u.id == tid) t = true := hh
      have e : List.find? (fun u : Task => u.id == tid) (t :: ts) = some t :=
        List.find?_cons_of_pos _ hq
      rw [e] at h
      cases h
    | false =>
      have hp : ¬ ((fun u : Task => u.id == tid) t = true) := by simp [hh]
      have e : List.find? (fun u : Task => u.id == tid) (t :: ts)
          = List.find? (fun u : Task => u.id == tid) ts :=
        List.find?_cons_of_neg _ hp
      rw [e] at h
      simp only [tickTasks, List.map_cons]
      rw [if_neg (by simp [hh])]
      have := ih h
      unfold tickTasks at this
      rw [this]

/-- Claim C6 amended: if the targeted task no longer exists at tick time
(the lookup by id finds nothing), the tick is a silent no-op — the task
store and the entire controller state are unchanged — and the session is
NOT stopped: it continues ticking against the nonexistent task until some
stop path runs. -/
theorem deleted_task_tick_noop (st : AppState) (tid : String)
    (h1 : st.timedTaskId = some tid) (h2 : findTask st.tasks tid = none) :
    tickStep st = st ∧ step st Event.pulse = st := by
  have ht : tickStep st = st := by
    cases st with
    | mk tasksF timedF intrF pipF disF =>
      simp only at h1 h2
      subst h1
      simp only [tickStep]
      rw [h2, tickTasks_of_not_found disF tid tasksF h2]
  refine ⟨ht, ?_⟩
  cases hi : st.timerIntervalRef.isSome <;> simp [step, hi, ht]

/-- Witness for the amended claim C6 at the concrete state whose targeted
task was deleted. -/
theorem deleted_task_tick_noop_witness :
    (ghostState.timedTaskId = some "t1" ∧ findTask ghostState.tasks "t1" = none) ∧
    (tickStep ghostState = ghostState ∧ step ghostState Event.pulse = ghostState) :=
  ⟨⟨rfl, by decide⟩, deleted_task_tick_noop ghostState "t1" rfl (by decide)⟩

/-- Claim C7: a tick is a delta keyed by task id, never a full-record
overwrite: the updated list has the same length, the task at every
position is unchanged when its id differs from the targeted id and is the
ticked version of the old task otherwise, and ticking a task preserves
every field other than the two counters (id, name, impact, effort,
deadline, status). -/
theorem tick_is_delta_by_id (d : Bool) (tid : String) (tasks : List Task) (i : Nat)
    (h : i < tasks.length) :
    (tickTasks d tid tasks).length = tasks.length ∧
    (tickTasks d tid tasks)[i]? =
      some (if tasks[i].id == tid then tickTask d tasks[i] else tasks[i]) ∧
    (∀ u : Task, (tickTask d u).id = u.id ∧ (tickTask d u).name = u.name ∧
      (tickTask d u).impact = u.impact ∧ (tickTask d u).effort = u.effort ∧
      (tickTask d u).deadline = u.deadline ∧ (tickTask d u).status = u.status) := by
  refine ⟨by simp [tickTasks], ?_, fun u => ⟨rfl, rfl, rfl, rfl, rfl, rfl⟩⟩
  simp [tickTasks, List.getElem?_map, List.getElem?_eq_getElem h]

/-- Witness for claim C7: position 1 holds a task with a different id and
comes back untouched. -/
theorem tick_is_delta_by_id_witness :
    1 < ([exTask, exTask2] : List Task).length ∧
    ((tickTasks false "t1" [exTask, exTask2]).length = 2 ∧
     (tickTasks false "t1" [exTask, exTask2])[1]? =
       some (if exTask2.id == "t1" then tickTask false exTask2 else exTask2) ∧
     (∀ u : Task, (tickTask false u).id = u.id ∧ (tickTask false u).name = u.name ∧
       (tickTask false u).impact = u.impact ∧ (tickTask false u).effort = u.effort ∧
       (tickTask false u).deadline = u.deadline ∧ (tickTask false u).status = u.status)) :=
  ⟨by decide, tick_is_delta_by_id false "t1" [exTask, exTask2] 1 (by decide)⟩

/-- Claim C8: a failure or impossibility of rendering to the surface never
prevents the task-store update. The tick's task-list result is exactly the
tick updater applied to the task list, computed identically whatever the
window handle holds (gone, closed, or missing its elements), and a render
against a null or closed handle is a silent no-op, never an error. -/
theorem render_never_blocks_update (st : AppState) (tid : String)
    (h1 : st.timedTaskId = some tid) :
    (tickStep st).tasks = tickTasks st.isDistracted tid st.tasks ∧
    (∀ w1 w2 : Option PipWindow,
      (tickStep { st with pipWindowRef := w1 }).tasks
        = (tickStep { st with pipWindowRef := w2 }).tasks) ∧
    (∀ a b : Nat, renderTick a b none = none) ∧
    (∀ (a b : Nat) (w : PipWindow), w.closed = true →
      renderTick a b (some w) = some w) := by
  refine ⟨?_, ?_, fun a b => rfl, ?_⟩
  · simp only [tickStep, h1]
  · intro w1 w2
    simp only [tickStep, h1]
  · intro a b w hc
    simp [renderTick, hc]

/-- Witness for claim C8: in the concrete active state, a missing window
and an open window produce the same task list. -/
theorem render_never_blocks_update_witness :
    activeEx.timedTaskId = some "t1" ∧
    ((tickStep activeEx).tasks = tickTasks activeEx.isDistracted "t1" activeEx.tasks ∧
     (tickStep { activeEx with pipWindowRef := none }).tasks
       = (tickStep { activeEx with pipWindowRef := some exWindow }).tasks) :=
  ⟨rfl, (render_never_blocks_update activeEx "t1" rfl).1,
    (render_never_blocks_update activeEx "t1" rfl).2.1 none (some exWindow)⟩

/-- Claim C10: after `handleStopTimer` returns, the controller is fully
idle in every starting state: the interval handle is cleared, the window
ref is nulled (after emitting a close request when a window was open), the
timed-task id is null, and the task store is untouched. -/
theorem stop_reestablishes_idle (st : AppState) :
    (handleStopTimer st).1.timerIntervalRef = none ∧
    (handleStopTimer st).1.pipWindowRef = none ∧
    (handleStopTimer st).1.timedTaskId = none ∧
    (handleStopTimer st).1.tasks = st.tasks ∧
    (∀ w : PipWindow, st.pipWindowRef = some w → w.closed = false →
      (handleStopTimer st).2 = [Effect.closeSurface]) := by
  refine ⟨rfl, rfl, rfl, rfl, ?_⟩
  intro w hw hc
  simp [handleStopTimer, hw, hc]

/-- Witness for claim C10 at the concrete active state with an open
window. -/
theorem stop_reestablishes_idle_witness :
    (activeEx.pipWindowRef = some exWindow ∧ exWindow.closed = false) ∧
    ((handleStopTimer activeEx).1.timerIntervalRef = none ∧
     (handleStopTimer activeEx).1.pipWindowRef = none ∧
     (handleStopTimer activeEx).1.timedTaskId = none ∧
     (handleStopTimer activeEx).2 = [Effect.closeSurface]) :=
  ⟨⟨rfl, rfl⟩, (stop_reestablishes_idle activeEx).1,
   (stop_reestablishes_idle activeEx).2.1,
   (stop_reestablishes_idle activeEx).2.2.1,
   (stop_reestablishes_idle activeEx).2.2.2.2 exWindow rfl rfl⟩

end TimerAD
